import Mathlib

/-!
Prediction-history dashboard controller (`static/js/main.js`).

A shallow embedding of the browser-side controller: the server's JSON is read
through the typed record shapes of the data model (every leaf field may be
absent), the page is an explicit state record, and each function of the
script becomes a state transformer on it.  A promise chain
`fetch(..).then(..).then(..).catch(..)` is modelled by the outcome of the
request (rejected, unreadable body, or a body) given as an argument.
-/

namespace PredictionHistory

/-! ## JavaScript strings -/

/-- A JavaScript string: its sequence of UTF-16 code units (numbers below
`65536`). -/
abbrev JSString := List Nat

/-- The UTF-16 code units of one character: itself in the basic plane, a
surrogate pair above it. -/
def utf16Char (c : Char) : JSString :=
  if c.toNat < 65536 then [c.toNat]
  else [55296 + (c.toNat - 65536) / 1024, 56320 + (c.toNat - 65536) % 1024]

/-- The UTF-16 code units of a list of characters. -/
def utf16Chars : List Char → JSString
  | [] => []
  | c :: cs => utf16Char c ++ utf16Chars cs

/-- The JavaScript string written by a literal of the script. -/
def utf16 (s : String) : JSString := utf16Chars s.toList

/-! ## JavaScript numbers -/

/-- A JavaScript number as `JSON.parse` delivers it or as the script computes
it: the finite value `± mantissa × 10 ^ exponent`, or an infinity.  `JSON.parse`
rounds the JSON text to a double before the script sees it; a double is given
here by the shortest decimal that reads back as the same double, which is the
decimal `Number::toString` prints (`33.6` is `finite false 336 (-1)`). -/
inductive JSNumber where
  | finite (negative : Bool) (mantissa : Nat) (exponent : Int)
  | infinity (negative : Bool)
  deriving DecidableEq, Repr

namespace JSNumber

/-- The number with a natural value, such as an array length. -/
def ofNat (n : Nat) : JSNumber := finite false n 0

/-- Whether the number is `+0` or `-0`. -/
def isZero : JSNumber → Bool
  | finite _ m _ => m == 0
  | infinity _ => false

/-- The decimal digits of the mantissa without its trailing zeros: the digit
string `s` of `Number::toString`. -/
def significand (m : Nat) : List Char :=
  let ds := Nat.toDigits 10 m
  ds.take (ds.length - (ds.reverse.takeWhile fun c => c == '0').length)

/-- The exponent `n` of `Number::toString`: the value is `0.s × 10 ^ n`. -/
def pointPosition (m : Nat) (e : Int) : Int := ((Nat.toDigits 10 m).length : Int) + e

/-- Steps 6 to 10 of `Number::toString` for a positive finite value. -/
def unsignedText (m : Nat) (e : Int) : List Char :=
  let s := significand m
  let k : Int := (s.length : Int)
  let n := pointPosition m e
  if k ≤ n ∧ n ≤ 21 then s ++ List.replicate (n - k).toNat '0'
  else if 0 < n ∧ n ≤ 21 then s.take n.toNat ++ '.' :: s.drop n.toNat
  else if -6 < n ∧ n ≤ 0 then '0' :: '.' :: (List.replicate (-n).toNat '0' ++ s)
  else
    let expo : List Char :=
      'e' :: (if n - 1 < 0 then '-' else '+') :: Nat.toDigits 10 (n - 1).natAbs
    if s.length = 1 then s ++ expo else s.take 1 ++ '.' :: (s.drop 1 ++ expo)

/-- The text of `Number::toString` (radix 10). -/
def text : JSNumber → List Char
  | finite negative m e =>
    if m = 0 then ['0'] else (if negative then ['-'] else []) ++ unsignedText m e
  | infinity negative => (if negative then ['-'] else []) ++ "Infinity".toList

/-- The comparison `Number::equal`: the same value, with `+0` equal to `-0`. -/
def sameValue : JSNumber → JSNumber → Bool
  | finite na ma ea, finite nb mb eb =>
    if ma = 0 ∨ mb = 0 then decide (ma = 0 ∧ mb = 0)
    else na == nb && significand ma == significand mb &&
      pointPosition ma ea == pointPosition mb eb
  | infinity na, infinity nb => na == nb
  | _, _ => false

end JSNumber

/-! ## JavaScript values -/

/-- Scalar JavaScript values found at the leaves of the server's JSON.
`undefined` is the value of an absent field. -/
inductive Val where
  | undefined
  | null
  | bool (b : Bool)
  | num (n : JSNumber)
  | str (s : JSString)
  deriving DecidableEq, Repr

namespace Val

/-- JavaScript `ToBoolean`. -/
def truthy : Val → Bool
  | undefined => false
  | null => false
  | bool b => b
  | num n => !n.isZero
  | str s => !s.isEmpty

/-- JavaScript `ToString`, as applied by template literals and by `+` with a
string operand. -/
def toStr : Val → JSString
  | undefined => utf16 "undefined"
  | null => utf16 "null"
  | bool true => utf16 "true"
  | bool false => utf16 "false"
  | num n => utf16Chars n.text
  | str s => s

/-- The operator `a || b`. -/
def orElse (a b : Val) : Val := if a.truthy then a else b

/-- The operator `a === b` on scalars. -/
def strictEq : Val → Val → Bool
  | undefined, undefined => true
  | null, null => true
  | bool a, bool b => a == b
  | num a, num b => a.sameValue b
  | str a, str b => a == b
  | _, _ => false

end Val

/-- Exceptions raised by the script or by the runtime. -/
inductive JSError where
  | typeError
  | error (msg : JSString)
  deriving DecidableEq, Repr

/-! ## Data model -/

/-- One element of a record's `predictions` sequence.  Single predictions use
`probability` and `risk_level`; batch predictions carry the original feature
values and `Risk_Level`, `Probability`. -/
structure PredEntry where
  probability : Val := Val.undefined
  risk_level : Val := Val.undefined
  Glucose : Val := Val.undefined
  BMI : Val := Val.undefined
  Age : Val := Val.undefined
  Risk_Level : Val := Val.undefined
  Probability : Val := Val.undefined
  deriving DecidableEq, Repr

/-- The `input_data` mapping of a single prediction (the three features the
script reads). -/
structure InputData where
  Glucose : Val := Val.undefined
  BMI : Val := Val.undefined
  Age : Val := Val.undefined
  deriving DecidableEq, Repr

/-- The `statistics` object of a batch prediction. -/
structure Statistics where
  total_records : Val := Val.undefined
  high_risk : Val := Val.undefined
  low_risk : Val := Val.undefined
  high_risk_percentage : Val := Val.undefined
  deriving DecidableEq, Repr

/-- A prediction record as supplied by the server.  A container field that is
absent (or `null`) is `none`. -/
structure PredictionRecord where
  id : Val := Val.undefined
  timestamp : Val := Val.undefined
  type : Val := Val.undefined
  model_used : Val := Val.undefined
  input_data : Option InputData := none
  predictions : Option (List PredEntry) := none
  statistics : Option Statistics := none
  deriving DecidableEq, Repr

/-- Body of `GET /get_predictions_history`. -/
structure HistoryResponse where
  success : Val := Val.undefined
  history : Option (List PredictionRecord) := none
  total_count : Val := Val.undefined
  error : Val := Val.undefined
  deriving DecidableEq, Repr

/-- Body of `POST /clear_predictions_history`. -/
structure ClearResponse where
  success : Val := Val.undefined
  message : Val := Val.undefined
  error : Val := Val.undefined
  deriving DecidableEq, Repr

/-- Outcome of `fetch(url).then(response => response.json())`. -/
inductive JsonFetch (α : Type) where
  | rejected
  | unparsable
  | body (data : α)
  deriving DecidableEq, Repr

/-- Outcome of a download `fetch`: the request is rejected, or a response
arrives with its `ok` flag and a body that `response.blob()` can read or not. -/
inductive BlobFetch where
  | rejected
  | response (ok : Bool) (blobReadable : Bool)
  deriving DecidableEq, Repr

/-! ## Page state -/

/-- The element with id `noPredictionsRow`: its inline `style.display` and
whether it is a child of the table body (the page template decides). -/
structure Placeholder where
  display : JSString
  inTableBody : Bool
  deriving DecidableEq, Repr

/-- A banner appended to `document.body` by `showSuccess` or `showError`. -/
structure Toast where
  className : JSString
  innerHTML : JSString
  deriving DecidableEq, Repr

/-- The parts of the document and of the script's globals that the script
reads or writes. -/
structure Page where
  /-- `innerHTML` of the `tr` children of `#predictionsTableBody`, in order. -/
  tableRows : List JSString := []
  /-- The element `#noPredictionsRow`, when the document has one. -/
  noPredictionsRow : Option Placeholder := none
  /-- `textContent` of `#historyCount`. -/
  historyCount : JSString := (utf16 "")
  /-- `innerHTML` of `#batchDetailsContent`. -/
  batchDetailsContent : JSString := (utf16 "")
  /-- Prediction id bound to the `onclick` of `#downloadBatchBtn`. -/
  downloadBatchId : Option Val := none
  /-- Number of `modal.show()` calls on `#batchDetailsModal`. -/
  modalShows : Nat := 0
  /-- The global `currentBatchId`. -/
  currentBatchId : Val := Val.null
  /-- Banners appended to `document.body`, oldest first. -/
  toasts : List Toast := []
  /-- Number of `URL.createObjectURL` calls. -/
  objectURLsCreated : Nat := 0
  /-- Number of `URL.revokeObjectURL` calls. -/
  objectURLsRevoked : Nat := 0
  /-- The `download` attribute of every anchor that was clicked, in order. -/
  anchorClicks : List JSString := []
  deriving DecidableEq, Repr

/-! ## Notifications -/

/-- Function `showSuccess(message)`. -/
def showSuccess (message : Val) (pg : Page) : Page :=
  { pg with toasts := pg.toasts ++
      [{ className := (utf16 "alert alert-success alert-dismissible fade show position-fixed"),
         innerHTML := (utf16 "\n        ") ++ message.toStr ++ (utf16 "\n        <button type=\"button\" class=\"btn-close\" data-bs-dismiss=\"alert\"></button>\n    ") }] }

/-- Function `showError(message)`. -/
def showError (message : Val) (pg : Page) : Page :=
  { pg with toasts := pg.toasts ++
      [{ className := (utf16 "alert alert-danger alert-dismissible fade show position-fixed"),
         innerHTML := (utf16 "\n        ") ++ message.toStr ++ (utf16 "\n        <button type=\"button\" class=\"btn-close\" data-bs-dismiss=\"alert\"></button>\n    ") }] }

/-- Whether a banner is an error banner (class `alert-danger`). -/
def Toast.isError (t : Toast) : Bool :=
  t.className == (utf16 "alert alert-danger alert-dismissible fade show position-fixed")

/-- Whether a banner is a success banner (class `alert-success`). -/
def Toast.isSuccess (t : Toast) : Bool :=
  t.className == (utf16 "alert alert-success alert-dismissible fade show position-fixed")

/-! ## History table -/

/-- The three computed cells of a table row. -/
structure Cells where
  featuresDisplay : JSString
  riskPercent : JSString
  predictionText : JSString
  deriving DecidableEq, Repr

/-- Lines 49-54: the cells of a batch row.  `pred.predictions.length` is
evaluated only when `stats.total_records` is falsy and raises a `TypeError`
when `pred.predictions` is absent. -/
def batchCells (pred : PredictionRecord) : Except JSError Cells :=
  let stats := pred.statistics.getD {}
  let total : Except JSError Val :=
    if stats.total_records.truthy then Except.ok stats.total_records
    else match pred.predictions with
      | some ps => Except.ok (Val.num (JSNumber.ofNat ps.length))
      | none => Except.error JSError.typeError
  match total with
  | Except.error e => Except.error e
  | Except.ok t => Except.ok
    { featuresDisplay := (utf16 "<span class=\"badge bg-info\">Batch: ") ++ t.toStr ++ (utf16 " records</span>")
      riskPercent := (stats.high_risk_percentage.orElse (Val.str (utf16 "N/A"))).toStr ++ (utf16 "% High Risk")
      predictionText := (stats.high_risk.orElse (Val.num (JSNumber.ofNat 0))).toStr ++ (utf16 " High, ") ++
        (stats.low_risk.orElse (Val.num (JSNumber.ofNat 0))).toStr ++ (utf16 " Low") }

/-- Lines 58-64: the features cell of a single row. -/
def singleFeatures (glucose bmi age : JSString) : JSString :=
  (utf16 "\n                <small>\n                    <div>Glucose: ") ++ glucose ++
  (utf16 "</div>\n                    <div>BMI: ") ++ bmi ++
  (utf16 "</div>\n                    <div>Age: ") ++ age ++
  (utf16 "</div>\n                </small>\n            ")

/-- Lines 44-47 and 56-72: the cells of a single row. -/
def singleCells (pred : PredictionRecord) : Cells :=
  let input := pred.input_data.getD {}
  let featuresDisplay := singleFeatures
    (input.Glucose.orElse (Val.str (utf16 "N/A"))).toStr
    (input.BMI.orElse (Val.str (utf16 "N/A"))).toStr
    (input.Age.orElse (Val.str (utf16 "N/A"))).toStr
  match pred.predictions with
  | some (first :: _) =>
    { featuresDisplay := featuresDisplay
      riskPercent := (first.probability.orElse (Val.str (utf16 "N/A"))).toStr ++ (utf16 "%")
      predictionText :=
        if first.risk_level.strictEq (Val.str (utf16 "High")) then
          (utf16 "<span class=\"badge bg-danger\">High Risk</span>")
        else
          (utf16 "<span class=\"badge bg-success\">Low Risk</span>") }
  | _ =>
    { featuresDisplay := featuresDisplay
      riskPercent := (utf16 "N/A")
      predictionText := (utf16 "N/A") }

/-- The method call `pred.id.substring(0, 6)`: only a string has the method; the
result is the first six UTF-16 code units. -/
def substring06 : Val → Except JSError JSString
  | Val.str s => Except.ok (s.take 6)
  | _ => Except.error JSError.typeError

/-- Lines 75-106: the `innerHTML` template of a row, as a function of its
interpolated values. -/
def rowTemplate (idBadge timestamp : JSString) (isBatch : Bool) (c : Cells) (id : JSString) : JSString :=
  (utf16 "\n            <td>\n                <span class=\"badge bg-secondary\">") ++ idBadge ++
  (utf16 "</span>\n            </td>\n            <td>\n                <small>") ++ timestamp ++
  (utf16 "</small>\n            </td>\n            <td>\n                ") ++
  (if isBatch then (utf16 "<span class=\"badge bg-primary\"><i class=\"fas fa-users me-1\"></i> Batch</span>")
   else (utf16 "<span class=\"badge bg-success\"><i class=\"fas fa-user me-1\"></i> Single</span>")) ++
  (utf16 "\n            </td>\n            <td>") ++ c.featuresDisplay ++
  (utf16 "</td>\n            <td>\n                <strong>") ++ c.riskPercent ++
  (utf16 "</strong>\n            </td>\n            <td>") ++ c.predictionText ++
  (utf16 "</td>\n            <td>\n                <div class=\"btn-group btn-group-sm\" role=\"group\">\n                    <button class=\"btn btn-outline-primary\" onclick=\"downloadPrediction('") ++ id ++
  (utf16 "')\" \n                            title=\"Download CSV\">\n                        <i class=\"fas fa-download\"></i>\n                    </button>\n                    ") ++
  (if isBatch then
    (utf16 "\n                    <button class=\"btn btn-outline-info\" onclick=\"viewBatchDetails('") ++ id ++
    (utf16 "')\" \n                            title=\"View Details\">\n                        <i class=\"fas fa-eye\"></i>\n                    </button>\n                    ")
   else (utf16 "")) ++
  (utf16 "\n                </div>\n            </td>\n        ")

/-- Whether the row is rendered as a batch: `pred.type !== 'single'`. -/
def isBatch (pred : PredictionRecord) : Bool := !pred.type.strictEq (Val.str (utf16 "single"))

/-- Lines 44-73: the cells of a row, by the record's type. -/
def rowCells (pred : PredictionRecord) : Except JSError Cells :=
  if isBatch pred then batchCells pred else Except.ok (singleCells pred)

/-- Lines 41-106: the body of the `forEach` callback up to the assignment of
`row.innerHTML`; the result is that `innerHTML`. -/
def renderRow (pred : PredictionRecord) : Except JSError JSString :=
  match rowCells pred with
  | Except.error e => Except.error e
  | Except.ok c =>
    match substring06 pred.id with
    | Except.error e => Except.error e
    | Except.ok idBadge =>
      Except.ok (rowTemplate idBadge pred.timestamp.toStr (isBatch pred) c pred.id.toStr)

/-- Lines 40-109: `predictions.forEach(...)`.  Each callback renders a row and
appends it to the table body; an exception ends the loop and leaves the rows
appended so far. -/
def forEachRow : List PredictionRecord → Page → Page × Option JSError
  | [], pg => (pg, none)
  | pred :: rest, pg =>
    match renderRow pred with
    | Except.error e => (pg, some e)
    | Except.ok html => forEachRow rest { pg with tableRows := pg.tableRows ++ [html] }

/-- Lines 25-27 and 32-34: `if (noPredictionsRow) noPredictionsRow.style.display = d`. -/
def setPlaceholderDisplay (d : JSString) (pg : Page) : Page :=
  { pg with noPredictionsRow := pg.noPredictionsRow.map fun p => { p with display := d } }

/-- Line 37: `tableBody.innerHTML = ''` removes every child of the table body,
the placeholder row included when it is one of them. -/
def clearTableBody (pg : Page) : Page :=
  { pg with
    tableRows := []
    noPredictionsRow := pg.noPredictionsRow.filter fun p => !p.inTableBody }

/-- Function `displayPredictionsHistory(predictions)`.  The result is the page
afterwards and the exception, if one was raised. -/
def displayPredictionsHistory (predictions : Option (List PredictionRecord)) (pg : Page) :
    Page × Option JSError :=
  match predictions with
  | none => (setPlaceholderDisplay (utf16 "") pg, none)
  | some [] => (setPlaceholderDisplay (utf16 "") pg, none)
  | some (pred :: rest) => forEachRow (pred :: rest) (clearTableBody (setPlaceholderDisplay (utf16 "none") pg))

/-- The setter of `textContent`: `null` and `undefined` give the empty string. -/
def textContentOf : Val → JSString
  | Val.undefined => (utf16 "")
  | Val.null => (utf16 "")
  | v => v.toStr

/-- Function `loadPredictionsHistory()`, given the outcome of its request. -/
def loadPredictionsHistory (res : JsonFetch HistoryResponse) (pg : Page) : Page :=
  match res with
  | JsonFetch.rejected => showError (Val.str (utf16 "Failed to load predictions history")) pg
  | JsonFetch.unparsable => showError (Val.str (utf16 "Failed to load predictions history")) pg
  | JsonFetch.body data =>
    if data.success.truthy then
      match displayPredictionsHistory data.history pg with
      | (pg1, some _) => showError (Val.str (utf16 "Failed to load predictions history")) pg1
      | (pg1, none) => { pg1 with historyCount := textContentOf data.total_count }
    else
      showError (Val.str ((utf16 "Failed to load history: ") ++ data.error.toStr)) pg

/-! ## Downloads -/

/-- Lines 115-120 and 275-280: the first `then` of a download, which raises on
a response that is not `ok` and otherwise reads the blob. -/
def readBlob : BlobFetch → Except JSError Unit
  | BlobFetch.rejected => Except.error JSError.typeError
  | BlobFetch.response ok blobReadable =>
    if !ok then Except.error (JSError.error (utf16 "Download failed"))
    else if blobReadable then Except.ok () else Except.error JSError.typeError

/-- Lines 123-134 and 282-294: create the object URL, click a temporary anchor
whose `download` attribute is `fileName`, revoke the URL. -/
def saveBlob (fileName : JSString) (pg : Page) : Page :=
  { pg with
    objectURLsCreated := pg.objectURLsCreated + 1
    anchorClicks := pg.anchorClicks ++ [fileName]
    objectURLsRevoked := pg.objectURLsRevoked + 1 }

/-- Function `downloadPrediction(predictionId)`, given the outcome of its
request. -/
def downloadPrediction (predictionId : Val) (res : BlobFetch) (pg : Page) : Page :=
  match readBlob res with
  | Except.ok _ =>
    showSuccess (Val.str (utf16 "Download started!"))
      (saveBlob ((utf16 "prediction_") ++ predictionId.toStr ++ (utf16 ".csv")) pg)
  | Except.error _ => showError (Val.str (utf16 "Failed to download predictions")) pg

/-- Line 287: `iso.slice(0, 19).replace(/:/g, '-')`, on code units (`58` is the
colon, `45` the hyphen). -/
def fileTimestamp (iso : JSString) : JSString :=
  (iso.take 19).map fun u => if u = 58 then 45 else u

/-- The click handler of `#downloadAllBtn` (lines 273-302), given the outcome
of its request and the value of `new Date().toISOString()`. -/
def downloadAllBtnClick (isoNow : JSString) (res : BlobFetch) (pg : Page) : Page :=
  match readBlob res with
  | Except.ok _ =>
    showSuccess (Val.str (utf16 "All predictions download started!"))
      (saveBlob ((utf16 "all_predictions_") ++ fileTimestamp isoNow ++ (utf16 ".csv")) pg)
  | Except.error _ => showError (Val.str (utf16 "Failed to download all predictions")) pg

/-! ## Batch details -/

/-- Lines 177-225: the two summary cards and the head of the preview table. -/
def detailsHeader (prediction : PredictionRecord) : JSString :=
  let predictions := prediction.predictions.getD []
  let stats := prediction.statistics.getD {}
  (utf16 "\n        <div class=\"row\">\n            <div class=\"col-md-6\">\n                <div class=\"card mb-3\">\n                    <div class=\"card-header\">\n                        <h6 class=\"mb-0\">Batch Information</h6>\n                    </div>\n                    <div class=\"card-body\">\n                        <p><strong>ID:</strong> ") ++ prediction.id.toStr ++
  (utf16 "</p>\n                        <p><strong>Timestamp:</strong> ") ++ prediction.timestamp.toStr ++
  (utf16 "</p>\n                        <p><strong>Model:</strong> ") ++ prediction.model_used.toStr ++
  (utf16 "</p>\n                        <p><strong>Type:</strong> ") ++ prediction.type.toStr ++
  (utf16 "</p>\n                    </div>\n                </div>\n            </div>\n            <div class=\"col-md-6\">\n                <div class=\"card mb-3\">\n                    <div class=\"card-header\">\n                        <h6 class=\"mb-0\">Statistics</h6>\n                    </div>\n                    <div class=\"card-body\">\n                        <p><strong>Total Records:</strong> ") ++
    (stats.total_records.orElse (Val.num (JSNumber.ofNat predictions.length))).toStr ++
  (utf16 "</p>\n                        <p><strong>High Risk:</strong> ") ++ (stats.high_risk.orElse (Val.str (utf16 "N/A"))).toStr ++
  (utf16 "</p>\n                        <p><strong>Low Risk:</strong> ") ++ (stats.low_risk.orElse (Val.str (utf16 "N/A"))).toStr ++
  (utf16 "</p>\n                        <p><strong>High Risk %:</strong> ") ++ (stats.high_risk_percentage.orElse (Val.str (utf16 "N/A"))).toStr ++
  (utf16 "%</p>\n                    </div>\n                </div>\n            </div>\n        </div>\n        \n        <div class=\"card\">\n            <div class=\"card-header\">\n                <h6 class=\"mb-0\">Sample Predictions (First 10)</h6>\n            </div>\n            <div class=\"card-body\">\n                <div class=\"table-responsive\">\n                    <table class=\"table table-sm\">\n                        <thead>\n                            <tr>\n                                <th>#</th>\n                                <th>Glucose</th>\n                                <th>BMI</th>\n                                <th>Age</th>\n                                <th>Prediction</th>\n                                <th>Probability</th>\n                            </tr>\n                        </thead>\n                        <tbody>\n    ")

/-- Lines 230-243: one row of the preview table; `number` is the value of
`index + 1`. -/
def sampleRow (number : Nat) (pred : PredEntry) : JSString :=
  (utf16 "\n            <tr>\n                <td>") ++ (Val.num (JSNumber.ofNat number)).toStr ++
  (utf16 "</td>\n                <td>") ++ (pred.Glucose.orElse (Val.str (utf16 "N/A"))).toStr ++
  (utf16 "</td>\n                <td>") ++ (pred.BMI.orElse (Val.str (utf16 "N/A"))).toStr ++
  (utf16 "</td>\n                <td>") ++ (pred.Age.orElse (Val.str (utf16 "N/A"))).toStr ++
  (utf16 "</td>\n                <td>\n                    ") ++
  (if pred.Risk_Level.strictEq (Val.str (utf16 "High")) then
    (utf16 "<span class=\"badge bg-danger\">High Risk</span>")
   else
    (utf16 "<span class=\"badge bg-success\">Low Risk</span>")) ++
  (utf16 "\n                </td>\n                <td><strong>") ++ (pred.Probability.orElse (Val.str (utf16 "N/A"))).toStr ++
  (utf16 "</strong></td>\n            </tr>\n        ")

/-- Lines 247-253: the note row; `more` is the value of
`predictions.length - 10`. -/
def moreNote (more : Nat) : JSString :=
  (utf16 "\n            <tr>\n                <td colspan=\"6\" class=\"text-center text-muted\">\n                    <i>... and ") ++ (Val.num (JSNumber.ofNat more)).toStr ++
  (utf16 " more records</i>\n                </td>\n            </tr>\n        ")

/-- Lines 256-262: the closing tags. -/
def detailsFooter : JSString :=
  (utf16 "\n                        </tbody>\n                    </table>\n                </div>\n            </div>\n        </div>\n    ")

/-- Lines 229-244: `samplePredictions.forEach((pred, index) => html += ...)`,
started at `index` with the markup built so far. -/
def appendSampleRows : List PredEntry → Nat → JSString → JSString
  | [], _, html => html
  | pred :: rest, index, html => appendSampleRows rest (index + 1) (html ++ sampleRow (index + 1) pred)

/-- Lines 174-262: the markup assigned to `contentDiv.innerHTML`. -/
def batchDetailsHtml (prediction : PredictionRecord) : JSString :=
  let predictions := prediction.predictions.getD []
  let html := detailsHeader prediction
  let samplePredictions := predictions.take 10
  let html := appendSampleRows samplePredictions 0 html
  let html := if predictions.length > 10 then html ++ moreNote (predictions.length - 10) else html
  html ++ detailsFooter

/-- Function `displayBatchDetails(prediction)`. -/
def displayBatchDetails (prediction : PredictionRecord) (pg : Page) : Page :=
  { pg with
    batchDetailsContent := batchDetailsHtml prediction
    downloadBatchId := some prediction.id }

/-- Function `viewBatchDetails(batchId)`, given the outcome of its request. -/
def viewBatchDetails (batchId : Val) (res : JsonFetch HistoryResponse) (pg : Page) : Page :=
  let pg := { pg with currentBatchId := batchId }
  match res with
  | JsonFetch.rejected => showError (Val.str (utf16 "Failed to load batch details")) pg
  | JsonFetch.unparsable => showError (Val.str (utf16 "Failed to load batch details")) pg
  | JsonFetch.body data =>
    if data.success.truthy then
      match data.history with
      | none => showError (Val.str (utf16 "Failed to load batch details")) pg
      | some history =>
        match history.find? fun p => p.id.strictEq batchId with
        | some prediction =>
          let pg := displayBatchDetails prediction pg
          { pg with modalShows := pg.modalShows + 1 }
        | none => pg
    else pg

/-! ## Clearing the history -/

/-- The click handler of `#clearHistoryBtn` (lines 305-327), given the answer
to the confirmation prompt, the outcome of the clear request and the outcome
of the reload request that a successful clear triggers. -/
def clearHistoryBtnClick (confirmed : Bool) (res : JsonFetch ClearResponse)
    (reload : JsonFetch HistoryResponse) (pg : Page) : Page :=
  if confirmed then
    match res with
    | JsonFetch.rejected => showError (Val.str (utf16 "Failed to clear history")) pg
    | JsonFetch.unparsable => showError (Val.str (utf16 "Failed to clear history")) pg
    | JsonFetch.body data =>
      if data.success.truthy then
        loadPredictionsHistory reload (showSuccess data.message pg)
      else
        showError (Val.str ((utf16 "Failed to clear history: ") ++ data.error.toStr)) pg
  else pg

/-- Whether the empty-state placeholder row is in the document and not hidden
by its inline style. -/
def placeholderShown (pg : Page) : Bool :=
  match pg.noPredictionsRow with
  | some p => p.display == (utf16 "")
  | none => false


/-- The record can be rendered by the `forEach` callback without an exception:
`pred.id` is a string (line 77), and a record rendered as a batch has a truthy
`statistics.total_records` or a `predictions` sequence (line 52). -/
def PredictionRecord.rendersCleanly (r : PredictionRecord) : Bool :=
  (match r.id with
   | Val.str _ => true
   | _ => false) &&
  (!isBatch r || (r.statistics.getD {}).total_records.truthy || r.predictions.isSome)

/-! ## Sample inputs -/

/-- A single prediction with all of its fields. -/
def sampleSingle : PredictionRecord :=
  { id := Val.str (utf16 "a1b2c3d4e5")
    timestamp := Val.str (utf16 "2024-05-01 10:00:00")
    type := Val.str (utf16 "single")
    model_used := Val.str (utf16 "Random Forest")
    input_data := some { Glucose := Val.num (JSNumber.ofNat 148), BMI := Val.num (JSNumber.ofNat 33), Age := Val.num (JSNumber.ofNat 50) }
    predictions := some [{ probability := Val.num (JSNumber.ofNat 72), risk_level := Val.str (utf16 "High") }] }

/-- A batch prediction of two records with its statistics. -/
def sampleBatch : PredictionRecord :=
  { id := Val.str (utf16 "b7f3a9c2d1")
    timestamp := Val.str (utf16 "2024-05-01 11:30:00")
    type := Val.str (utf16 "batch")
    model_used := Val.str (utf16 "Random Forest")
    predictions := some
      [{ Glucose := Val.num (JSNumber.ofNat 148), BMI := Val.num (JSNumber.ofNat 33), Age := Val.num (JSNumber.ofNat 50),
         Risk_Level := Val.str (utf16 "High"), Probability := Val.num (JSNumber.ofNat 72) },
       { Glucose := Val.num (JSNumber.ofNat 85), BMI := Val.num (JSNumber.ofNat 26), Age := Val.num (JSNumber.ofNat 31),
         Risk_Level := Val.str (utf16 "Low"), Probability := Val.num (JSNumber.ofNat 12) }]
    statistics := some
      { total_records := Val.num (JSNumber.ofNat 2), high_risk := Val.num (JSNumber.ofNat 1), low_risk := Val.num (JSNumber.ofNat 1),
        high_risk_percentage := Val.num (JSNumber.ofNat 50) } }

/-- A batch prediction without `statistics` and with an empty `predictions`
sequence. -/
def batchNoStats : PredictionRecord :=
  { id := Val.str (utf16 "b7f3a9c2d1")
    timestamp := Val.str (utf16 "2024-05-01 11:30:00")
    type := Val.str (utf16 "batch")
    predictions := some [] }

/-- A single prediction without `id`. -/
def singleNoId : PredictionRecord :=
  { timestamp := Val.str (utf16 "2024-05-01 10:00:00")
    type := Val.str (utf16 "single")
    input_data := some { Glucose := Val.num (JSNumber.ofNat 148), BMI := Val.num (JSNumber.ofNat 33), Age := Val.num (JSNumber.ofNat 50) } }

/-- A single prediction whose glucose value is the number `0` and whose BMI is
`33.6`. -/
def singleZeroGlucose : PredictionRecord :=
  { id := Val.str (utf16 "a1b2c3d4e5")
    timestamp := Val.str (utf16 "2024-05-01 10:00:00")
    type := Val.str (utf16 "single")
    input_data := some
      { Glucose := Val.num (JSNumber.ofNat 0)
        BMI := Val.num (JSNumber.finite false 336 (-1))
        Age := Val.num (JSNumber.ofNat 50) } }

/-- A batch prediction without `statistics` and without `predictions`. -/
def batchBare : PredictionRecord :=
  { id := Val.str (utf16 "d9e8f7a6b5")
    timestamp := Val.str (utf16 "2024-05-02 09:15:00")
    type := Val.str (utf16 "batch") }

/-- A successful history response that carries no `history` field. -/
def noHistoryResponse : HistoryResponse :=
  { success := Val.bool true, total_count := Val.num (JSNumber.ofNat 0) }

/-- A single prediction without any `predictions`. -/
def singleNoPredictions : PredictionRecord :=
  { id := Val.str (utf16 "a1b2c3d4e5")
    timestamp := Val.str (utf16 "2024-05-01 10:00:00")
    type := Val.str (utf16 "single")
    input_data := some { Glucose := Val.num (JSNumber.ofNat 148), BMI := Val.num (JSNumber.ofNat 33), Age := Val.num (JSNumber.ofNat 50) } }

/-- The page as the template delivers it: an empty table body that holds the
visible placeholder row. -/
def freshPage : Page :=
  { noPredictionsRow := some { display := (utf16 ""), inTableBody := true }
    historyCount := (utf16 "0") }

/-- A page whose table body holds one row left by an earlier render; the
placeholder row sits outside the table body and is hidden. -/
def stalePage : Page :=
  { tableRows := [(utf16 "<td>stale</td>")]
    noPredictionsRow := some { display := (utf16 "none"), inTableBody := false }
    historyCount := (utf16 "1") }

/-- The template page with the placeholder row outside the table body. -/
def templatePage : Page :=
  { noPredictionsRow := some { display := (utf16 ""), inTableBody := false }
    historyCount := (utf16 "0") }

/-- The template page after a history of one record has been loaded. -/
def loadedPage : Page :=
  loadPredictionsHistory
    (JsonFetch.body
      { success := Val.bool true, history := some [sampleSingle], total_count := Val.num (JSNumber.ofNat 1) })
    templatePage

/-- The page `freshPage`, whose placeholder row is a child of the table body,
after a history of one record has been loaded. -/
def loadedFreshPage : Page :=
  loadPredictionsHistory
    (JsonFetch.body
      { success := Val.bool true, history := some [sampleSingle], total_count := Val.num (JSNumber.ofNat 1) })
    freshPage

/-- A successful clear response. -/
def clearedResponse : ClearResponse :=
  { success := Val.bool true, message := Val.str (utf16 "Prediction history cleared") }

/-- A successful history response with an empty history. -/
def emptyHistoryResponse : HistoryResponse :=
  { success := Val.bool true, history := some [], total_count := Val.num (JSNumber.ofNat 0) }

/-- A successful history response with an empty history and a total count
of three. -/
def emptyHistoryCountThree : HistoryResponse :=
  { success := Val.bool true, history := some [], total_count := Val.num (JSNumber.ofNat 3) }

/-- A failure response of the history endpoint. -/
def failedHistoryResponse : HistoryResponse :=
  { success := Val.bool false, error := Val.str (utf16 "storage unavailable") }

/-- A batch record with twelve per-record predictions. -/
def batchOfTwelve : PredictionRecord :=
  { sampleBatch with
    id := Val.str (utf16 "c4d5e6f7a8")
    predictions := some (List.replicate 12
      { Glucose := Val.num (JSNumber.ofNat 120), BMI := Val.num (JSNumber.ofNat 28), Age := Val.num (JSNumber.ofNat 44),
        Risk_Level := Val.str (utf16 "Low"), Probability := Val.num (JSNumber.ofNat 20) }) }

/-! ## Properties -/

set_option maxRecDepth 100000

theorem split_P4 :
    (utf16 "\n            </td>\n            <td>") =
      (utf16 "\n            </td>\n            ") ++ (utf16 "<td>") := by
  rfl

theorem split_L1 :
    (utf16 "</td>\n            <td>\n                <strong>") =
      (utf16 "</td>") ++ (utf16 "\n            <td>\n                ") ++ (utf16 "<strong>") := by
  rfl

theorem split_L2 :
    (utf16 "</strong>\n            </td>\n            <td>") =
      (utf16 "</strong>") ++ (utf16 "\n            </td>\n            ") ++ (utf16 "<td>") := by
  rfl

theorem split_P7 :
    (utf16 "</td>\n            <td>\n                <div class=\"btn-group btn-group-sm\" role=\"group\">\n                    <button class=\"btn btn-outline-primary\" onclick=\"downloadPrediction('") =
      (utf16 "</td>") ++ (utf16 "\n            <td>\n                <div class=\"btn-group btn-group-sm\" role=\"group\">\n                    <button class=\"btn btn-outline-primary\" onclick=\"") ++ (utf16 "downloadPrediction('") := by
  rfl

theorem split_P8 :
    (utf16 "')\" \n                            title=\"Download CSV\">\n                        <i class=\"fas fa-download\"></i>\n                    </button>\n                    ") =
      (utf16 "')") ++ (utf16 "\" \n                            title=\"Download CSV\">\n                        <i class=\"fas fa-download\"></i>\n                    </button>\n                    ") := by
  rfl

/-- The features cell of the row template. -/
theorem features_in_row (idBadge timestamp : JSString) (isBatch : Bool) (c : Cells) (id : JSString) :
    (utf16 "<td>") ++ c.featuresDisplay ++ (utf16 "</td>") <:+:
      rowTemplate idBadge timestamp isBatch c id := by
  refine ⟨(utf16 "\n            <td>\n                <span class=\"badge bg-secondary\">") ++ idBadge ++ (utf16 "</span>\n            </td>\n            <td>\n                <small>") ++ timestamp ++ (utf16 "</small>\n            </td>\n            <td>\n                ") ++ (if isBatch then (utf16 "<span class=\"badge bg-primary\"><i class=\"fas fa-users me-1\"></i> Batch</span>")
   else (utf16 "<span class=\"badge bg-success\"><i class=\"fas fa-user me-1\"></i> Single</span>")) ++ (utf16 "\n            </td>\n            "),
    (utf16 "\n            <td>\n                ") ++ (utf16 "<strong>") ++ c.riskPercent ++ (utf16 "</strong>") ++ (utf16 "\n            </td>\n            ") ++ (utf16 "<td>") ++ c.predictionText ++ (utf16 "</td>") ++ (utf16 "\n            <td>\n                <div class=\"btn-group btn-group-sm\" role=\"group\">\n                    <button class=\"btn btn-outline-primary\" onclick=\"") ++ (utf16 "downloadPrediction('") ++ id ++ (utf16 "')") ++ (utf16 "\" \n                            title=\"Download CSV\">\n                        <i class=\"fas fa-download\"></i>\n                    </button>\n                    ") ++ (if isBatch then
    (utf16 "\n                    <button class=\"btn btn-outline-info\" onclick=\"viewBatchDetails('") ++ id ++
    (utf16 "')\" \n                            title=\"View Details\">\n                        <i class=\"fas fa-eye\"></i>\n                    </button>\n                    ")
   else (utf16 "")) ++ (utf16 "\n                </div>\n            </td>\n        "), ?_⟩
  simp only [rowTemplate, split_P4, split_L1, split_L2, split_P7, split_P8, List.append_assoc]

/-- The risk cell of the row template. -/
theorem risk_in_row (idBadge timestamp : JSString) (isBatch : Bool) (c : Cells) (id : JSString) :
    (utf16 "<strong>") ++ c.riskPercent ++ (utf16 "</strong>") <:+:
      rowTemplate idBadge timestamp isBatch c id := by
  refine ⟨(utf16 "\n            <td>\n                <span class=\"badge bg-secondary\">") ++ idBadge ++ (utf16 "</span>\n            </td>\n            <td>\n                <small>") ++ timestamp ++ (utf16 "</small>\n            </td>\n            <td>\n                ") ++ (if isBatch then (utf16 "<span class=\"badge bg-primary\"><i class=\"fas fa-users me-1\"></i> Batch</span>")
   else (utf16 "<span class=\"badge bg-success\"><i class=\"fas fa-user me-1\"></i> Single</span>")) ++ (utf16 "\n            </td>\n            ") ++ (utf16 "<td>") ++ c.featuresDisplay ++ (utf16 "</td>") ++ (utf16 "\n            <td>\n                "),
    (utf16 "\n            </td>\n            ") ++ (utf16 "<td>") ++ c.predictionText ++ (utf16 "</td>") ++ (utf16 "\n            <td>\n                <div class=\"btn-group btn-group-sm\" role=\"group\">\n                    <button class=\"btn btn-outline-primary\" onclick=\"") ++ (utf16 "downloadPrediction('") ++ id ++ (utf16 "')") ++ (utf16 "\" \n                            title=\"Download CSV\">\n                        <i class=\"fas fa-download\"></i>\n                    </button>\n                    ") ++ (if isBatch then
    (utf16 "\n                    <button class=\"btn btn-outline-info\" onclick=\"viewBatchDetails('") ++ id ++
    (utf16 "')\" \n                            title=\"View Details\">\n                        <i class=\"fas fa-eye\"></i>\n                    </button>\n                    ")
   else (utf16 "")) ++ (utf16 "\n                </div>\n            </td>\n        "), ?_⟩
  simp only [rowTemplate, split_P4, split_L1, split_L2, split_P7, split_P8, List.append_assoc]

/-- The prediction cell of the row template. -/
theorem label_in_row (idBadge timestamp : JSString) (isBatch : Bool) (c : Cells) (id : JSString) :
    (utf16 "<td>") ++ c.predictionText ++ (utf16 "</td>") <:+:
      rowTemplate idBadge timestamp isBatch c id := by
  refine ⟨(utf16 "\n            <td>\n                <span class=\"badge bg-secondary\">") ++ idBadge ++ (utf16 "</span>\n            </td>\n            <td>\n                <small>") ++ timestamp ++ (utf16 "</small>\n            </td>\n            <td>\n                ") ++ (if isBatch then (utf16 "<span class=\"badge bg-primary\"><i class=\"fas fa-users me-1\"></i> Batch</span>")
   else (utf16 "<span class=\"badge bg-success\"><i class=\"fas fa-user me-1\"></i> Single</span>")) ++ (utf16 "\n            </td>\n            ") ++ (utf16 "<td>") ++ c.featuresDisplay ++ (utf16 "</td>") ++ (utf16 "\n            <td>\n                ") ++ (utf16 "<strong>") ++ c.riskPercent ++ (utf16 "</strong>") ++ (utf16 "\n            </td>\n            "),
    (utf16 "\n            <td>\n                <div class=\"btn-group btn-group-sm\" role=\"group\">\n                    <button class=\"btn btn-outline-primary\" onclick=\"") ++ (utf16 "downloadPrediction('") ++ id ++ (utf16 "')") ++ (utf16 "\" \n                            title=\"Download CSV\">\n                        <i class=\"fas fa-download\"></i>\n                    </button>\n                    ") ++ (if isBatch then
    (utf16 "\n                    <button class=\"btn btn-outline-info\" onclick=\"viewBatchDetails('") ++ id ++
    (utf16 "')\" \n                            title=\"View Details\">\n                        <i class=\"fas fa-eye\"></i>\n                    </button>\n                    ")
   else (utf16 "")) ++ (utf16 "\n                </div>\n            </td>\n        "), ?_⟩
  simp only [rowTemplate, split_P4, split_L1, split_L2, split_P7, split_P8, List.append_assoc]

/-- The risk cell followed by the prediction cell of the row template. -/
theorem risk_label_in_row (idBadge timestamp : JSString) (isBatch : Bool) (c : Cells) (id : JSString) :
    (utf16 "<strong>") ++ c.riskPercent ++ (utf16 "</strong>\n            </td>\n            <td>") ++ c.predictionText ++ (utf16 "</td>") <:+:
      rowTemplate idBadge timestamp isBatch c id := by
  refine ⟨(utf16 "\n            <td>\n                <span class=\"badge bg-secondary\">") ++ idBadge ++ (utf16 "</span>\n            </td>\n            <td>\n                <small>") ++ timestamp ++ (utf16 "</small>\n            </td>\n            <td>\n                ") ++ (if isBatch then (utf16 "<span class=\"badge bg-primary\"><i class=\"fas fa-users me-1\"></i> Batch</span>")
   else (utf16 "<span class=\"badge bg-success\"><i class=\"fas fa-user me-1\"></i> Single</span>")) ++ (utf16 "\n            </td>\n            ") ++ (utf16 "<td>") ++ c.featuresDisplay ++ (utf16 "</td>") ++ (utf16 "\n            <td>\n                "),
    (utf16 "\n            <td>\n                <div class=\"btn-group btn-group-sm\" role=\"group\">\n                    <button class=\"btn btn-outline-primary\" onclick=\"") ++ (utf16 "downloadPrediction('") ++ id ++ (utf16 "')") ++ (utf16 "\" \n                            title=\"Download CSV\">\n                        <i class=\"fas fa-download\"></i>\n                    </button>\n                    ") ++ (if isBatch then
    (utf16 "\n                    <button class=\"btn btn-outline-info\" onclick=\"viewBatchDetails('") ++ id ++
    (utf16 "')\" \n                            title=\"View Details\">\n                        <i class=\"fas fa-eye\"></i>\n                    </button>\n                    ")
   else (utf16 "")) ++ (utf16 "\n                </div>\n            </td>\n        "), ?_⟩
  simp only [rowTemplate, split_P4, split_L1, split_L2, split_P7, split_P8, List.append_assoc]

/-- The download action of the row template. -/
theorem id_in_row (idBadge timestamp : JSString) (isBatch : Bool) (c : Cells) (id : JSString) :
    (utf16 "downloadPrediction('") ++ id ++ (utf16 "')") <:+:
      rowTemplate idBadge timestamp isBatch c id := by
  refine ⟨(utf16 "\n            <td>\n                <span class=\"badge bg-secondary\">") ++ idBadge ++ (utf16 "</span>\n            </td>\n            <td>\n                <small>") ++ timestamp ++ (utf16 "</small>\n            </td>\n            <td>\n                ") ++ (if isBatch then (utf16 "<span class=\"badge bg-primary\"><i class=\"fas fa-users me-1\"></i> Batch</span>")
   else (utf16 "<span class=\"badge bg-success\"><i class=\"fas fa-user me-1\"></i> Single</span>")) ++ (utf16 "\n            </td>\n            ") ++ (utf16 "<td>") ++ c.featuresDisplay ++ (utf16 "</td>") ++ (utf16 "\n            <td>\n                ") ++ (utf16 "<strong>") ++ c.riskPercent ++ (utf16 "</strong>") ++ (utf16 "\n            </td>\n            ") ++ (utf16 "<td>") ++ c.predictionText ++ (utf16 "</td>") ++ (utf16 "\n            <td>\n                <div class=\"btn-group btn-group-sm\" role=\"group\">\n                    <button class=\"btn btn-outline-primary\" onclick=\""),
    (utf16 "\" \n                            title=\"Download CSV\">\n                        <i class=\"fas fa-download\"></i>\n                    </button>\n                    ") ++ (if isBatch then
    (utf16 "\n                    <button class=\"btn btn-outline-info\" onclick=\"viewBatchDetails('") ++ id ++
    (utf16 "')\" \n                            title=\"View Details\">\n                        <i class=\"fas fa-eye\"></i>\n                    </button>\n                    ")
   else (utf16 "")) ++ (utf16 "\n                </div>\n            </td>\n        "), ?_⟩
  simp only [rowTemplate, split_P4, split_L1, split_L2, split_P7, split_P8, List.append_assoc]

/-- A fractional number prints with its decimal point. -/
theorem toStr_fraction :
    (Val.num (JSNumber.finite false 336 (-1))).toStr = utf16 "33.6" := by
  rfl

/-- From `1e21` on, `Number::toString` switches to exponent notation. -/
theorem toStr_large :
    (Val.num (JSNumber.finite false 1 21)).toStr = utf16 "1e+21" ∧
    (Val.num (JSNumber.ofNat 100000000000000000000)).toStr = utf16 "100000000000000000000" := by
  exact ⟨rfl, rfl⟩

/-- The id badge counts UTF-16 code units: four characters outside the basic
plane are eight units, of which the badge keeps six, that is three
characters. -/
theorem substring06_surrogates :
    substring06 (Val.str (utf16 "😀😀😀😀")) = Except.ok (utf16 "😀😀😀") := by
  rfl

theorem renderRow_of_cells (r : PredictionRecord) (c : Cells) (s : JSString)
    (hc : rowCells r = Except.ok c) (hid : r.id = Val.str s) :
    renderRow r =
      Except.ok (rowTemplate (s.take 6) r.timestamp.toStr (isBatch r) c s) := by
  simp [renderRow, hc, hid, substring06, Val.toStr]

theorem renderRow_inv (r : PredictionRecord) (row : JSString)
    (h : renderRow r = Except.ok row) :
    ∃ c s, rowCells r = Except.ok c ∧ r.id = Val.str s ∧
      row = rowTemplate (s.take 6) r.timestamp.toStr (isBatch r) c s := by
  unfold renderRow at h
  cases hc : rowCells r with
  | error e => simp [hc] at h
  | ok c =>
    cases hid : r.id with
    | str s =>
      simp [hc, hid, substring06, Val.toStr] at h
      exact ⟨c, s, rfl, rfl, h.symm⟩
    | undefined => simp [hc, hid, substring06] at h
    | null => simp [hc, hid, substring06] at h
    | bool b => simp [hc, hid, substring06] at h
    | num n => simp [hc, hid, substring06] at h

theorem renderRow_ok_of_rendersCleanly (r : PredictionRecord) (h : r.rendersCleanly = true) :
    ∃ c html, rowCells r = Except.ok c ∧ renderRow r = Except.ok html := by
  simp only [PredictionRecord.rendersCleanly, Bool.and_eq_true, Bool.or_eq_true] at h
  obtain ⟨hid, hb⟩ := h
  have hc : ∃ c, rowCells r = Except.ok c := by
    unfold rowCells
    by_cases hB : isBatch r = true
    · simp only [hB, if_true]
      simp only [hB, Bool.not_true, Bool.false_eq_true, false_or] at hb
      unfold batchCells
      rcases hb with hb | hb
      · simp [hb]
      · obtain ⟨ps, hps⟩ := Option.isSome_iff_exists.mp hb
        by_cases ht : (r.statistics.getD {}).total_records.truthy = true
        · simp [ht]
        · simp [ht, hps]
    · simp [hB]
  obtain ⟨c, hc⟩ := hc
  cases hidv : r.id with
  | str s => exact ⟨c, _, hc, renderRow_of_cells r c s hc hidv⟩
  | undefined => simp [hidv] at hid
  | null => simp [hidv] at hid
  | bool b => simp [hidv] at hid
  | num n => simp [hidv] at hid

theorem forEachRow_ok (preds : List PredictionRecord) :
    ∀ pg : Page, (∀ r ∈ preds, r.rendersCleanly = true) →
      ∃ rows, List.Forall₂ (fun r row => renderRow r = Except.ok row) preds rows ∧
        forEachRow preds pg = ({ pg with tableRows := pg.tableRows ++ rows }, none) := by
  induction preds with
  | nil => intro pg _; exact ⟨[], List.Forall₂.nil, by simp [forEachRow]⟩
  | cons r rest ih =>
    intro pg h
    obtain ⟨_, html, _, hr⟩ := renderRow_ok_of_rendersCleanly r (h r (List.mem_cons_self _ _))
    obtain ⟨rows, hrows, hrest⟩ :=
      ih { pg with tableRows := pg.tableRows ++ [html] } (fun q hq => h q (List.mem_cons_of_mem _ hq))
    refine ⟨html :: rows, List.Forall₂.cons hr hrows, ?_⟩
    simp [forEachRow, hr, hrest]

theorem displayPredictionsHistory_ok (preds : List PredictionRecord) (pg : Page)
    (hne : preds ≠ []) (hok : ∀ r ∈ preds, r.rendersCleanly = true) :
    ∃ rows, List.Forall₂ (fun r row => renderRow r = Except.ok row) preds rows ∧
      displayPredictionsHistory (some preds) pg =
        ({ clearTableBody (setPlaceholderDisplay (utf16 "none") pg) with tableRows := rows },
         none) := by
  cases preds with
  | nil => exact absurd rfl hne
  | cons r rest =>
    obtain ⟨rows, hrows, h⟩ :=
      forEachRow_ok (r :: rest) (clearTableBody (setPlaceholderDisplay (utf16 "none") pg)) hok
    refine ⟨rows, hrows, ?_⟩
    simp only [displayPredictionsHistory, h]
    simp [clearTableBody]

theorem forall₂_renderRow_unique (preds : List PredictionRecord) :
    ∀ rows rows0 : List JSString,
      List.Forall₂ (fun r row => renderRow r = Except.ok row) preds rows →
      List.Forall₂ (fun r row => renderRow r = Except.ok row) preds rows0 → rows = rows0 := by
  induction preds with
  | nil =>
    intro rows rows0 h h0
    cases h; cases h0; rfl
  | cons r rest ih =>
    intro rows rows0 h h0
    cases h with
    | cons h1 ht =>
      cases h0 with
      | cons h2 ht0 =>
        rw [h1] at h2
        injection h2 with h2
        rw [h2, ih _ _ ht ht0]

theorem id_pin_of_renderRow (r : PredictionRecord) (row : JSString)
    (h : renderRow r = Except.ok row) :
    (utf16 "downloadPrediction('") ++ r.id.toStr ++ (utf16 "')") <:+: row := by
  obtain ⟨c, s, _, hid, hrow⟩ := renderRow_inv r row h
  rw [hrow, hid]
  exact id_in_row _ _ _ c s

/-- C1, refuted as stated: on the sequence of a complete single record followed
by a batch record that has neither `statistics` nor `predictions`, the render
raises a `TypeError` at the second record and the table body holds one row for
two records. -/
theorem C1_counterexample :
    displayPredictionsHistory (some [sampleSingle, batchBare]) stalePage =
      ({ tableRows :=
          [rowTemplate (utf16 "a1b2c3") (utf16 "2024-05-01 10:00:00") false
            { featuresDisplay := singleFeatures (utf16 "148") (utf16 "33") (utf16 "50")
              riskPercent := utf16 "72%"
              predictionText := utf16 "<span class=\"badge bg-danger\">High Risk</span>" }
            (utf16 "a1b2c3d4e5")]
         noPredictionsRow := some { display := utf16 "none", inTableBody := false }
         historyCount := utf16 "1" },
       some JSError.typeError) := by
  rfl

/-- C1, amended: for a non-empty sequence of records in which every record has
a string id and every record rendered as a batch has a truthy
`statistics.total_records` or a `predictions` sequence, and for every prior
page, `displayPredictionsHistory` raises nothing and leaves in the table body
exactly one row per input record, in input order: the row is the markup the
callback renders for that record and carries the download action of that
record's id.  The rows do not depend on what the table body held before. -/
theorem C1_table_rebuilt (preds : List PredictionRecord) (pg : Page)
    (hne : preds ≠ []) (hok : ∀ r ∈ preds, r.rendersCleanly = true) :
    (displayPredictionsHistory (some preds) pg).2 = none ∧
    List.Forall₂
      (fun r row => renderRow r = Except.ok row ∧
        (utf16 "downloadPrediction('") ++ r.id.toStr ++ (utf16 "')") <:+: row)
      preds (displayPredictionsHistory (some preds) pg).1.tableRows ∧
    (displayPredictionsHistory (some preds) pg).1.tableRows.length = preds.length ∧
    ∀ pg0 : Page, (displayPredictionsHistory (some preds) pg0).1.tableRows =
      (displayPredictionsHistory (some preds) pg).1.tableRows := by
  obtain ⟨rows, hrows, h⟩ := displayPredictionsHistory_ok preds pg hne hok
  refine ⟨by rw [h], ?_, by rw [h]; exact hrows.length_eq.symm, ?_⟩
  · rw [h]
    exact hrows.imp fun r row hr => ⟨hr, id_pin_of_renderRow r row hr⟩
  · intro pg0
    obtain ⟨rows0, hrows0, h0⟩ := displayPredictionsHistory_ok preds pg0 hne hok
    rw [h, h0]
    exact forall₂_renderRow_unique preds rows0 rows hrows0 hrows

/-- Witness of the amended C1: two records rendered over a page with a stale
row. -/
theorem C1_table_rebuilt_witness :
    (displayPredictionsHistory (some [sampleSingle, sampleBatch]) stalePage).1.tableRows.length =
      [sampleSingle, sampleBatch].length :=
  (C1_table_rebuilt [sampleSingle, sampleBatch] stalePage (by decide) (by decide)).2.2.1


theorem split_F1 :
    (utf16 "\n                <small>\n                    <div>Glucose: ") =
      (utf16 "\n                <small>\n                    ") ++ (utf16 "<div>Glucose: ") := by
  rfl

theorem split_F2 :
    (utf16 "</div>\n                    <div>BMI: ") =
      (utf16 "</div>") ++ (utf16 "\n                    ") ++ (utf16 "<div>BMI: ") := by
  rfl

theorem split_F3 :
    (utf16 "</div>\n                    <div>Age: ") =
      (utf16 "</div>") ++ (utf16 "\n                    ") ++ (utf16 "<div>Age: ") := by
  rfl

theorem split_F4 :
    (utf16 "</div>\n                </small>\n            ") =
      (utf16 "</div>") ++ (utf16 "\n                </small>\n            ") := by
  rfl

/-- The glucose line of the features cell. -/
theorem glucose_in_features (glucose bmi age : JSString) :
    (utf16 "<div>Glucose: ") ++ glucose ++ (utf16 "</div>") <:+: singleFeatures glucose bmi age := by
  refine ⟨(utf16 "\n                <small>\n                    "),
    (utf16 "\n                    ") ++ (utf16 "<div>BMI: ") ++ bmi ++ (utf16 "</div>") ++ (utf16 "\n                    ") ++ (utf16 "<div>Age: ") ++ age ++ (utf16 "</div>") ++ (utf16 "\n                </small>\n            "), ?_⟩
  simp only [singleFeatures, split_F1, split_F2, split_F3, split_F4, List.append_assoc]

/-- The BMI line of the features cell. -/
theorem bmi_in_features (glucose bmi age : JSString) :
    (utf16 "<div>BMI: ") ++ bmi ++ (utf16 "</div>") <:+: singleFeatures glucose bmi age := by
  refine ⟨(utf16 "\n                <small>\n                    ") ++ (utf16 "<div>Glucose: ") ++ glucose ++ (utf16 "</div>") ++ (utf16 "\n                    "),
    (utf16 "\n                    ") ++ (utf16 "<div>Age: ") ++ age ++ (utf16 "</div>") ++ (utf16 "\n                </small>\n            "), ?_⟩
  simp only [singleFeatures, split_F1, split_F2, split_F3, split_F4, List.append_assoc]

/-- The age line of the features cell. -/
theorem age_in_features (glucose bmi age : JSString) :
    (utf16 "<div>Age: ") ++ age ++ (utf16 "</div>") <:+: singleFeatures glucose bmi age := by
  refine ⟨(utf16 "\n                <small>\n                    ") ++ (utf16 "<div>Glucose: ") ++ glucose ++ (utf16 "</div>") ++ (utf16 "\n                    ") ++ (utf16 "<div>BMI: ") ++ bmi ++ (utf16 "</div>") ++ (utf16 "\n                    "),
    (utf16 "\n                </small>\n            "), ?_⟩
  simp only [singleFeatures, split_F1, split_F2, split_F3, split_F4, List.append_assoc]

theorem strictEq_str_iff (v : Val) (s : JSString) :
    v.strictEq (Val.str s) = true ↔ v = Val.str s := by
  cases v <;> simp [Val.strictEq]

theorem isBatch_false_iff (r : PredictionRecord) :
    isBatch r = false ↔ r.type = Val.str (utf16 "single") := by
  simp [isBatch, strictEq_str_iff]

theorem isBatch_true_iff (r : PredictionRecord) :
    isBatch r = true ↔ r.type ≠ Val.str (utf16 "single") := by
  have h := isBatch_false_iff r
  constructor
  · intro hb ht
    rw [h.mpr ht] at hb
    cases hb
  · intro hne
    cases hb : isBatch r with
    | true => rfl
    | false => exact absurd (h.mp hb) hne

theorem rowCells_single (r : PredictionRecord) (h : isBatch r = false) :
    rowCells r = Except.ok (singleCells r) := by
  simp [rowCells, h]

theorem orElse_toStr (a : Val) (s : JSString) :
    (a.orElse (Val.str s)).toStr = if a.truthy then a.toStr else s := by
  unfold Val.orElse
  split <;> rfl

theorem singleCells_features (r : PredictionRecord) :
    (singleCells r).featuresDisplay = singleFeatures
      (if (r.input_data.getD {}).Glucose.truthy then (r.input_data.getD {}).Glucose.toStr
       else utf16 "N/A")
      (if (r.input_data.getD {}).BMI.truthy then (r.input_data.getD {}).BMI.toStr
       else utf16 "N/A")
      (if (r.input_data.getD {}).Age.truthy then (r.input_data.getD {}).Age.toStr
       else utf16 "N/A") := by
  simp only [← orElse_toStr]
  unfold singleCells
  split <;> rfl

theorem batchCells_inv (r : PredictionRecord) (c : Cells) (h : batchCells r = Except.ok c) :
    c.riskPercent =
      ((r.statistics.getD {}).high_risk_percentage.orElse (Val.str (utf16 "N/A"))).toStr ++
        utf16 "% High Risk" ∧
    c.predictionText =
      ((r.statistics.getD {}).high_risk.orElse (Val.num (JSNumber.ofNat 0))).toStr ++
        utf16 " High, " ++
        ((r.statistics.getD {}).low_risk.orElse (Val.num (JSNumber.ofNat 0))).toStr ++
        utf16 " Low" := by
  unfold batchCells at h
  simp only at h
  split at h
  · cases h
  · injection h with h
    subst h
    exact ⟨rfl, rfl⟩

theorem features_infix_row (idBadge timestamp : JSString) (b : Bool) (c : Cells)
    (id : JSString) : c.featuresDisplay <:+: rowTemplate idBadge timestamp b c id :=
  (List.infix_append _ _ _).trans (features_in_row idBadge timestamp b c id)

theorem displayPredictionsHistory_single (r : PredictionRecord) (row : JSString) (pg : Page)
    (h : renderRow r = Except.ok row) :
    displayPredictionsHistory (some [r]) pg =
      ({ clearTableBody (setPlaceholderDisplay (utf16 "none") pg) with tableRows := [row] },
       none) := by
  simp [displayPredictionsHistory, forEachRow, h, clearTableBody]


theorem pin_of_eq {m n l : JSString} (e : m = n) (h : n <:+: l) : m <:+: l :=
  e ▸ h

theorem absent_fields_of_renderRow (r : PredictionRecord) (row : JSString)
    (h : renderRow r = Except.ok row) :
    (r.type = Val.str (utf16 "single") →
      ((r.input_data.getD {}).Glucose = Val.undefined →
        utf16 "<div>Glucose: N/A</div>" <:+: row) ∧
      ((r.input_data.getD {}).BMI = Val.undefined →
        utf16 "<div>BMI: N/A</div>" <:+: row) ∧
      ((r.input_data.getD {}).Age = Val.undefined →
        utf16 "<div>Age: N/A</div>" <:+: row) ∧
      (r.predictions = none →
        utf16 "<strong>N/A</strong>\n            </td>\n            <td>N/A</td>" <:+: row) ∧
      (∀ first rest, r.predictions = some (first :: rest) →
        first.probability = Val.undefined → utf16 "<strong>N/A%</strong>" <:+: row)) ∧
    (r.type ≠ Val.str (utf16 "single") →
      ((r.statistics.getD {}).high_risk_percentage = Val.undefined →
        utf16 "<strong>N/A% High Risk</strong>" <:+: row) ∧
      ((r.statistics.getD {}).high_risk = Val.undefined →
        utf16 "<td>0 High, " <:+: row) ∧
      ((r.statistics.getD {}).low_risk = Val.undefined →
        utf16 " High, 0 Low</td>" <:+: row)) := by
  obtain ⟨c, s, hc, hid, hrow⟩ := renderRow_inv r row h
  subst hrow
  constructor
  · intro ht
    have hB := (isBatch_false_iff r).mpr ht
    rw [rowCells_single r hB] at hc
    injection hc with hc
    subst hc
    have hfeat := features_infix_row (s.take 6) r.timestamp.toStr (isBatch r) (singleCells r) s
    rw [singleCells_features] at hfeat
    refine ⟨?_, ?_, ?_, ?_, ?_⟩
    · intro hg
      rw [hg] at hfeat
      exact pin_of_eq (by rfl) ((glucose_in_features _ _ _).trans hfeat)
    · intro hg
      rw [hg] at hfeat
      exact pin_of_eq (by rfl) ((bmi_in_features _ _ _).trans hfeat)
    · intro hg
      rw [hg] at hfeat
      exact pin_of_eq (by rfl) ((age_in_features _ _ _).trans hfeat)
    · intro hp
      have h1 := risk_label_in_row (s.take 6) r.timestamp.toStr (isBatch r) (singleCells r) s
      have hr : (singleCells r).riskPercent = utf16 "N/A" := by simp [singleCells, hp]
      have hl : (singleCells r).predictionText = utf16 "N/A" := by simp [singleCells, hp]
      rw [hr, hl] at h1
      exact pin_of_eq (by rfl) h1
    · intro first rest hp hprob
      have h1 := risk_in_row (s.take 6) r.timestamp.toStr (isBatch r) (singleCells r) s
      have hr : (singleCells r).riskPercent =
          (Val.undefined.orElse (Val.str (utf16 "N/A"))).toStr ++ utf16 "%" := by
        simp [singleCells, hp, hprob]
      rw [hr] at h1
      exact pin_of_eq (by rfl) h1
  · intro ht
    have hB := (isBatch_true_iff r).mpr ht
    simp only [rowCells, hB, if_true] at hc
    obtain ⟨hr, hl⟩ := batchCells_inv r c hc
    refine ⟨?_, ?_, ?_⟩
    · intro hh
      have h1 := risk_in_row (s.take 6) r.timestamp.toStr (isBatch r) c s
      rw [hr, hh] at h1
      exact pin_of_eq (by rfl) h1
    · intro hh
      have h1 := label_in_row (s.take 6) r.timestamp.toStr (isBatch r) c s
      rw [hl, hh] at h1
      have hm : utf16 "<td>0 High, " =
          utf16 "<td>" ++ (Val.undefined.orElse (Val.num (JSNumber.ofNat 0))).toStr ++
            utf16 " High, " := by rfl
      refine List.IsInfix.trans ⟨[], ((r.statistics.getD {}).low_risk.orElse
        (Val.num (JSNumber.ofNat 0))).toStr ++ utf16 " Low" ++ utf16 "</td>", ?_⟩ h1
      rw [hm]
      simp only [List.nil_append, List.append_assoc]
    · intro hh
      have h1 := label_in_row (s.take 6) r.timestamp.toStr (isBatch r) c s
      rw [hl, hh] at h1
      have hm : utf16 " High, 0 Low</td>" =
          utf16 " High, " ++ (Val.undefined.orElse (Val.num (JSNumber.ofNat 0))).toStr ++
            utf16 " Low" ++ utf16 "</td>" := by rfl
      refine List.IsInfix.trans ⟨utf16 "<td>" ++ ((r.statistics.getD {}).high_risk.orElse
        (Val.num (JSNumber.ofNat 0))).toStr, [], ?_⟩ h1
      rw [hm]
      simp only [List.append_nil, List.append_assoc]

/-- C2, refuted as stated: on the sequence of a batch record without
`statistics` followed by a single record without `id`, the render raises a
`TypeError` after one row, and that row shows the absent high and low counts
as `0`, not as `N/A`. -/
theorem C2_counterexample :
    displayPredictionsHistory (some [batchNoStats, singleNoId]) freshPage =
      ({ tableRows :=
          [rowTemplate (utf16 "b7f3a9") (utf16 "2024-05-01 11:30:00") true
            { featuresDisplay := utf16 "<span class=\"badge bg-info\">Batch: 0 records</span>"
              riskPercent := utf16 "N/A% High Risk"
              predictionText := utf16 "0 High, 0 Low" }
            (utf16 "b7f3a9c2d1")]
         noPredictionsRow := none
         historyCount := utf16 "0" },
       some JSError.typeError) := by
  rfl

/-- C2, amended: when every record has a string id and every record rendered
as a batch has a truthy `statistics.total_records` or a `predictions`
sequence, `displayPredictionsHistory` raises nothing whichever other fields
are absent, and the row it leaves in the table body for each record shows:
for a single record, `N/A` for each absent feature (Glucose, BMI, Age), `N/A`
as risk percentage and as label when `predictions` is absent, and `N/A%` as
risk percentage when the first prediction has no `probability`; for a batch
record, `N/A% High Risk` when `high_risk_percentage` is absent, `0` as the
high count when `high_risk` is absent and `0` as the low count when `low_risk`
is absent. -/
theorem C2_absent_fields_amended (preds : List PredictionRecord) (pg : Page)
    (hok : ∀ r ∈ preds, r.rendersCleanly = true) :
    (displayPredictionsHistory (some preds) pg).2 = none ∧
    (preds ≠ [] →
      List.Forall₂
        (fun r row =>
          (r.type = Val.str (utf16 "single") →
            ((r.input_data.getD {}).Glucose = Val.undefined →
              utf16 "<div>Glucose: N/A</div>" <:+: row) ∧
            ((r.input_data.getD {}).BMI = Val.undefined →
              utf16 "<div>BMI: N/A</div>" <:+: row) ∧
            ((r.input_data.getD {}).Age = Val.undefined →
              utf16 "<div>Age: N/A</div>" <:+: row) ∧
            (r.predictions = none →
              utf16 "<strong>N/A</strong>\n            </td>\n            <td>N/A</td>" <:+: row) ∧
            (∀ first rest, r.predictions = some (first :: rest) →
              first.probability = Val.undefined → utf16 "<strong>N/A%</strong>" <:+: row)) ∧
          (r.type ≠ Val.str (utf16 "single") →
            ((r.statistics.getD {}).high_risk_percentage = Val.undefined →
              utf16 "<strong>N/A% High Risk</strong>" <:+: row) ∧
            ((r.statistics.getD {}).high_risk = Val.undefined →
              utf16 "<td>0 High, " <:+: row) ∧
            ((r.statistics.getD {}).low_risk = Val.undefined →
              utf16 " High, 0 Low</td>" <:+: row)))
        preds (displayPredictionsHistory (some preds) pg).1.tableRows) := by
  constructor
  · cases preds with
    | nil => rfl
    | cons r rest =>
      obtain ⟨rows, _, h⟩ := displayPredictionsHistory_ok (r :: rest) pg (by simp) hok
      rw [h]
  · intro hne
    obtain ⟨rows, hrows, h⟩ := displayPredictionsHistory_ok preds pg hne hok
    rw [h]
    exact hrows.imp fun r row hr => absent_fields_of_renderRow r row hr

/-- Witness of the amended C2: a complete single record, a batch record
without statistics and a single record without predictions. -/
theorem C2_absent_fields_amended_witness :
    (displayPredictionsHistory (some [sampleSingle, batchNoStats, singleNoPredictions]) stalePage).2
      = none :=
  (C2_absent_fields_amended [sampleSingle, batchNoStats, singleNoPredictions] stalePage
    (by decide)).1


/-- C9, refuted as stated: on the sequence of a single record whose
`input_data.Glucose` is the number `0` (BMI `33.6`, Age `50`) followed by a
single record without `id`, the first row shows `Glucose: N/A`, not
`Glucose: 0`, and the render raises a `TypeError` at the second record, for
which no features cell is rendered. -/
theorem C9_counterexample :
    displayPredictionsHistory (some [singleZeroGlucose, singleNoId]) freshPage =
      ({ tableRows :=
          [rowTemplate (utf16 "a1b2c3") (utf16 "2024-05-01 10:00:00") false
            { featuresDisplay := utf16 "\n                <small>\n                    <div>Glucose: N/A</div>\n                    <div>BMI: 33.6</div>\n                    <div>Age: 50</div>\n                </small>\n            "
              riskPercent := utf16 "N/A"
              predictionText := utf16 "N/A" }
            (utf16 "a1b2c3d4e5")]
         noPredictionsRow := none
         historyCount := utf16 "0" },
       some JSError.typeError) := by
  rfl

/-- C9, amended: for every single-type record with a string id, the row that
`displayPredictionsHistory` renders for it has a features cell that shows
Glucose, BMI and Age, each as the text of its `input_data` value when that
value is truthy and as `N/A` otherwise, that is when the field is missing or
holds a falsy value (`0`, the empty string, `false`, `null`). -/
theorem C9_features_amended (r : PredictionRecord) (s : JSString) (pg : Page)
    (hs : r.type = Val.str (utf16 "single")) (hid : r.id = Val.str s) :
    ∃ row, renderRow r = Except.ok row ∧
      displayPredictionsHistory (some [r]) pg =
        ({ clearTableBody (setPlaceholderDisplay (utf16 "none") pg) with tableRows := [row] },
         none) ∧
      (utf16 "<td>" ++
        utf16 "\n                <small>\n                    <div>Glucose: " ++
        (if (r.input_data.getD {}).Glucose.truthy then (r.input_data.getD {}).Glucose.toStr
         else utf16 "N/A") ++
        utf16 "</div>\n                    <div>BMI: " ++
        (if (r.input_data.getD {}).BMI.truthy then (r.input_data.getD {}).BMI.toStr
         else utf16 "N/A") ++
        utf16 "</div>\n                    <div>Age: " ++
        (if (r.input_data.getD {}).Age.truthy then (r.input_data.getD {}).Age.toStr
         else utf16 "N/A") ++
        utf16 "</div>\n                </small>\n            " ++
        utf16 "</td>") <:+: row := by
  have hB := (isBatch_false_iff r).mpr hs
  have hc := rowCells_single r hB
  have hr := renderRow_of_cells r (singleCells r) s hc hid
  refine ⟨_, hr, displayPredictionsHistory_single r _ pg hr, ?_⟩
  have h1 := features_in_row (s.take 6) r.timestamp.toStr (isBatch r) (singleCells r) s
  rw [singleCells_features] at h1
  simpa only [singleFeatures, List.append_assoc] using h1

/-- Witness of the amended C9: the record whose glucose value is `0`. -/
theorem C9_features_amended_witness :
    ∃ row, renderRow singleZeroGlucose = Except.ok row ∧
      displayPredictionsHistory (some [singleZeroGlucose]) stalePage =
        ({ clearTableBody (setPlaceholderDisplay (utf16 "none") stalePage) with
            tableRows := [row] },
         none) ∧
      (utf16 "<td>" ++
        utf16 "\n                <small>\n                    <div>Glucose: " ++
        (if (singleZeroGlucose.input_data.getD {}).Glucose.truthy then
          (singleZeroGlucose.input_data.getD {}).Glucose.toStr
         else utf16 "N/A") ++
        utf16 "</div>\n                    <div>BMI: " ++
        (if (singleZeroGlucose.input_data.getD {}).BMI.truthy then
          (singleZeroGlucose.input_data.getD {}).BMI.toStr
         else utf16 "N/A") ++
        utf16 "</div>\n                    <div>Age: " ++
        (if (singleZeroGlucose.input_data.getD {}).Age.truthy then
          (singleZeroGlucose.input_data.getD {}).Age.toStr
         else utf16 "N/A") ++
        utf16 "</div>\n                </small>\n            " ++
        utf16 "</td>") <:+: row :=
  C9_features_amended singleZeroGlucose (utf16 "a1b2c3d4e5") stalePage rfl rfl

/-- C10: a single-type record with a string id whose `predictions` field is
absent or empty is rendered without an exception, and the row left in the
table body shows `N/A` in the risk cell, followed by `N/A` in the prediction
cell; its id badge holds the first six UTF-16 code units of the id. -/
theorem C10_no_predictions_fallback (r : PredictionRecord) (s : JSString) (pg : Page)
    (hs : r.type = Val.str (utf16 "single")) (hid : r.id = Val.str s)
    (hp : r.predictions = none ∨ r.predictions = some []) :
    ∃ row, renderRow r = Except.ok row ∧
      displayPredictionsHistory (some [r]) pg =
        ({ clearTableBody (setPlaceholderDisplay (utf16 "none") pg) with tableRows := [row] },
         none) ∧
      utf16 "<strong>N/A</strong>\n            </td>\n            <td>N/A</td>" <:+: row ∧
      (utf16 "\n            <td>\n                <span class=\"badge bg-secondary\">" ++
        s.take 6 ++ utf16 "</span>") <+: row := by
  have hB := (isBatch_false_iff r).mpr hs
  have hc := rowCells_single r hB
  have hr := renderRow_of_cells r (singleCells r) s hc hid
  refine ⟨_, hr, displayPredictionsHistory_single r _ pg hr, ?_, ?_⟩
  · have h1 := risk_label_in_row (s.take 6) r.timestamp.toStr (isBatch r) (singleCells r) s
    have hrisk : (singleCells r).riskPercent = utf16 "N/A" := by
      rcases hp with hp | hp <;> simp [singleCells, hp]
    have hlabel : (singleCells r).predictionText = utf16 "N/A" := by
      rcases hp with hp | hp <;> simp [singleCells, hp]
    rw [hrisk, hlabel] at h1
    exact pin_of_eq (by rfl) h1
  · have hsplit : utf16 "</span>\n            </td>\n            <td>\n                <small>" =
        utf16 "</span>" ++ utf16 "\n            </td>\n            <td>\n                <small>" := by
      rfl
    simp only [rowTemplate, hsplit, List.append_assoc, List.prefix_append_right_inj,
      List.prefix_append]

/-- Witness of C10: a single record without predictions. -/
theorem C10_no_predictions_fallback_witness :
    ∃ row, renderRow singleNoPredictions = Except.ok row ∧
      displayPredictionsHistory (some [singleNoPredictions]) stalePage =
        ({ clearTableBody (setPlaceholderDisplay (utf16 "none") stalePage) with
            tableRows := [row] },
         none) ∧
      utf16 "<strong>N/A</strong>\n            </td>\n            <td>N/A</td>" <:+: row ∧
      (utf16 "\n            <td>\n                <span class=\"badge bg-secondary\">" ++
        (utf16 "a1b2c3d4e5").take 6 ++ utf16 "</span>") <+: row :=
  C10_no_predictions_fallback singleNoPredictions (utf16 "a1b2c3d4e5") stalePage rfl rfl
    (Or.inl rfl)


theorem showError_adds_one (message : Val) (pg : Page) :
    ∃ t, (showError message pg).toasts = pg.toasts ++ [t] ∧
      t.isError = true ∧ t.isSuccess = false :=
  ⟨_, rfl, rfl, rfl⟩

/-- C5: when `loadPredictionsHistory` fails (rejected request, unreadable body,
or a body whose `success` is falsy) the table rows, the placeholder row and
the counter are untouched and exactly one banner, an error banner, is added. -/
theorem C5_failure_frame (res : JsonFetch HistoryResponse) (pg : Page)
    (hfail : res = JsonFetch.rejected ∨ res = JsonFetch.unparsable ∨
      ∃ data, res = JsonFetch.body data ∧ data.success.truthy = false) :
    (loadPredictionsHistory res pg).tableRows = pg.tableRows ∧
    (loadPredictionsHistory res pg).noPredictionsRow = pg.noPredictionsRow ∧
    (loadPredictionsHistory res pg).historyCount = pg.historyCount ∧
    ∃ t, (loadPredictionsHistory res pg).toasts = pg.toasts ++ [t] ∧
      t.isError = true ∧ t.isSuccess = false := by
  rcases hfail with h | h | ⟨data, h, hs⟩
  · subst h
    exact ⟨rfl, rfl, rfl, showError_adds_one _ pg⟩
  · subst h
    exact ⟨rfl, rfl, rfl, showError_adds_one _ pg⟩
  · subst h
    simp only [loadPredictionsHistory, hs]
    exact ⟨rfl, rfl, rfl, showError_adds_one _ pg⟩

/-- Witness of C5: a `success: false` response arriving at a loaded page. -/
theorem C5_failure_frame_witness :
    (loadPredictionsHistory (JsonFetch.body failedHistoryResponse) loadedPage).tableRows =
      loadedPage.tableRows :=
  (C5_failure_frame (JsonFetch.body failedHistoryResponse) loadedPage
    (Or.inr (Or.inr ⟨failedHistoryResponse, rfl, rfl⟩))).1

/-- C6: when the download response is not `ok`, `downloadPrediction` and the
download-all handler each add exactly one banner, an error banner and not a
success banner, create no object URL and click no anchor. -/
theorem C6_download_failure (predictionId : Val) (isoNow : JSString) (blobReadable : Bool)
    (pg : Page) :
    ((∃ t, (downloadPrediction predictionId (BlobFetch.response false blobReadable) pg).toasts =
          pg.toasts ++ [t] ∧ t.isError = true ∧ t.isSuccess = false) ∧
      (downloadPrediction predictionId (BlobFetch.response false blobReadable) pg).objectURLsCreated =
        pg.objectURLsCreated ∧
      (downloadPrediction predictionId (BlobFetch.response false blobReadable) pg).anchorClicks =
        pg.anchorClicks) ∧
    ((∃ t, (downloadAllBtnClick isoNow (BlobFetch.response false blobReadable) pg).toasts =
          pg.toasts ++ [t] ∧ t.isError = true ∧ t.isSuccess = false) ∧
      (downloadAllBtnClick isoNow (BlobFetch.response false blobReadable) pg).objectURLsCreated =
        pg.objectURLsCreated ∧
      (downloadAllBtnClick isoNow (BlobFetch.response false blobReadable) pg).anchorClicks =
        pg.anchorClicks) :=
  ⟨⟨showError_adds_one _ pg, rfl, rfl⟩, ⟨showError_adds_one _ pg, rfl, rfl⟩⟩

/-- The empty branch of `displayPredictionsHistory` only resets the display of
the placeholder row: whatever the table body holds stays. -/
theorem displayPredictionsHistory_empty (pg : Page) :
    displayPredictionsHistory (some []) pg = (setPlaceholderDisplay (utf16 "") pg, none) := rfl

/-- A successful clear followed by a successful reload with an empty history
keeps every row of the table body, on every page. -/
theorem clearHistory_keeps_rows (clear : ClearResponse) (data : HistoryResponse) (pg : Page)
    (hc : clear.success.truthy = true) (hs : data.success.truthy = true)
    (he : data.history = some []) :
    (clearHistoryBtnClick true (JsonFetch.body clear) (JsonFetch.body data) pg).tableRows =
      pg.tableRows := by
  simp [clearHistoryBtnClick, hc, loadPredictionsHistory, hs, he, displayPredictionsHistory,
    setPlaceholderDisplay, showSuccess]

/-- C3, evaluated at the failing input: on the page that shows one loaded
record, a confirmed clear that succeeds, followed by a reload that returns an
empty history, leaves the rendered row of that record in the table body, next
to the placeholder row that is now shown. -/
theorem C3_stale_rows_after_clear :
    (clearHistoryBtnClick true (JsonFetch.body clearedResponse)
        (JsonFetch.body emptyHistoryResponse) loadedPage).tableRows = loadedPage.tableRows ∧
    renderRow sampleSingle = Except.ok
      (rowTemplate (utf16 "a1b2c3") (utf16 "2024-05-01 10:00:00") false
        { featuresDisplay := singleFeatures (utf16 "148") (utf16 "33") (utf16 "50")
          riskPercent := (utf16 "72%")
          predictionText := (utf16 "<span class=\"badge bg-danger\">High Risk</span>") }
        (utf16 "a1b2c3d4e5")) ∧
    loadedPage.tableRows =
      [rowTemplate (utf16 "a1b2c3") (utf16 "2024-05-01 10:00:00") false
        { featuresDisplay := singleFeatures (utf16 "148") (utf16 "33") (utf16 "50")
          riskPercent := (utf16 "72%")
          predictionText := (utf16 "<span class=\"badge bg-danger\">High Risk</span>") }
        (utf16 "a1b2c3d4e5")] ∧
    placeholderShown
      (clearHistoryBtnClick true (JsonFetch.body clearedResponse)
        (JsonFetch.body emptyHistoryResponse) loadedPage) = true := by
  refine ⟨rfl, rfl, rfl, rfl⟩

/-- C7, refuted as stated: on the page whose placeholder row was a child of
the table body and was removed by the render of one record, a successful
response with an empty history and `total_count` 3 shows no placeholder row and
sets the counter to `3`. -/
theorem C7_counterexample :
    placeholderShown
      (loadPredictionsHistory (JsonFetch.body emptyHistoryCountThree) loadedFreshPage) = false ∧
    (loadPredictionsHistory (JsonFetch.body emptyHistoryCountThree) loadedFreshPage).historyCount =
      (utf16 "3") ∧
    loadedFreshPage.noPredictionsRow = none := by
  refine ⟨rfl, rfl, rfl⟩

/-- C7, amended: after a successful response with an empty history the
placeholder row, when the document has one, is shown, and the counter displays
the response's `total_count` (so `0` when the server reports 0). -/
theorem C7_empty_history_amended (data : HistoryResponse) (pg : Page)
    (hs : data.success.truthy = true) (he : data.history = some []) :
    (loadPredictionsHistory (JsonFetch.body data) pg).noPredictionsRow =
      pg.noPredictionsRow.map (fun p => { p with display := (utf16 "") }) ∧
    (pg.noPredictionsRow.isSome = true →
      placeholderShown (loadPredictionsHistory (JsonFetch.body data) pg) = true) ∧
    (loadPredictionsHistory (JsonFetch.body data) pg).historyCount =
      textContentOf data.total_count ∧
    (data.total_count = Val.num (JSNumber.ofNat 0) →
      (loadPredictionsHistory (JsonFetch.body data) pg).historyCount = (utf16 "0")) := by
  have h : loadPredictionsHistory (JsonFetch.body data) pg =
      { setPlaceholderDisplay (utf16 "") pg with historyCount := textContentOf data.total_count } := by
    simp [loadPredictionsHistory, hs, he, displayPredictionsHistory]
  rw [h]
  refine ⟨rfl, ?_, rfl, ?_⟩
  · intro hp
    obtain ⟨p, hp⟩ := Option.isSome_iff_exists.mp hp
    simp [placeholderShown, setPlaceholderDisplay, hp]
  · intro h0
    simp [h0, textContentOf, Val.toStr]
    rfl

/-- Witness of the amended C7: an empty history with total count 0 arriving
at a loaded page. -/
theorem C7_empty_history_amended_witness :
    (loadPredictionsHistory (JsonFetch.body emptyHistoryResponse) loadedPage).historyCount =
      textContentOf emptyHistoryResponse.total_count :=
  (C7_empty_history_amended emptyHistoryResponse loadedPage rfl rfl).2.2.1


theorem numText_small (n : Nat) (h : n ≤ 10) :
    (Val.num (JSNumber.ofNat n)).toStr = utf16 (toString n) := by
  interval_cases n <;> rfl

theorem sampleRow_small (i : Nat) (p : PredEntry) (h : i + 1 ≤ 10) :
    sampleRow (i + 1) p =
      (fun x : Nat × PredEntry =>
      (utf16 "\n            <tr>\n                <td>") ++ utf16 (toString (x.1 + 1)) ++
      (utf16 "</td>\n                <td>") ++ (x.2.Glucose.orElse (Val.str (utf16 "N/A"))).toStr ++
      (utf16 "</td>\n                <td>") ++ (x.2.BMI.orElse (Val.str (utf16 "N/A"))).toStr ++
      (utf16 "</td>\n                <td>") ++ (x.2.Age.orElse (Val.str (utf16 "N/A"))).toStr ++
      (utf16 "</td>\n                <td>\n                    ") ++
      (if x.2.Risk_Level.strictEq (Val.str (utf16 "High")) then
        (utf16 "<span class=\"badge bg-danger\">High Risk</span>")
       else
        (utf16 "<span class=\"badge bg-success\">Low Risk</span>")) ++
      (utf16 "\n                </td>\n                <td><strong>") ++ (x.2.Probability.orElse (Val.str (utf16 "N/A"))).toStr ++
      (utf16 "</strong></td>\n            </tr>\n        ")) (i, p) := by
  unfold sampleRow
  rw [numText_small (i + 1) h]

theorem appendSampleRows_eq (ps : List PredEntry) :
    ∀ (index : Nat) (html : JSString), index + ps.length ≤ 10 →
      appendSampleRows ps index html =
        html ++ (List.map
          (fun x : Nat × PredEntry =>
      (utf16 "\n            <tr>\n                <td>") ++ utf16 (toString (x.1 + 1)) ++
      (utf16 "</td>\n                <td>") ++ (x.2.Glucose.orElse (Val.str (utf16 "N/A"))).toStr ++
      (utf16 "</td>\n                <td>") ++ (x.2.BMI.orElse (Val.str (utf16 "N/A"))).toStr ++
      (utf16 "</td>\n                <td>") ++ (x.2.Age.orElse (Val.str (utf16 "N/A"))).toStr ++
      (utf16 "</td>\n                <td>\n                    ") ++
      (if x.2.Risk_Level.strictEq (Val.str (utf16 "High")) then
        (utf16 "<span class=\"badge bg-danger\">High Risk</span>")
       else
        (utf16 "<span class=\"badge bg-success\">Low Risk</span>")) ++
      (utf16 "\n                </td>\n                <td><strong>") ++ (x.2.Probability.orElse (Val.str (utf16 "N/A"))).toStr ++
      (utf16 "</strong></td>\n            </tr>\n        ")) (ps.enumFrom index)).flatten := by
  induction ps with
  | nil => intro index html _; simp [appendSampleRows]
  | cons p rest ih =>
    intro index html hb
    simp only [List.length_cons] at hb
    simp only [appendSampleRows, List.enumFrom_cons, List.map_cons, List.flatten_cons]
    rw [ih (index + 1) _ (by omega), sampleRow_small index p (by omega), List.append_assoc]

theorem appendSampleRows_extends (ps : List PredEntry) :
    ∀ (index : Nat) (html : JSString), html <+: appendSampleRows ps index html := by
  induction ps with
  | nil => intro index html; exact List.prefix_refl _
  | cons p rest ih =>
    intro index html
    exact (List.prefix_append _ _).trans (ih (index + 1) _)

/-- C4: the markup that `displayBatchDetails` writes is the header, then one
preview row for each of the first `min N 10` predictions, in their order and
numbered from 1, then the note row for `N - 10` more records exactly when
`N > 10`, then the closing tags (`N` is the length of the record's
`predictions`, taken as empty when absent). -/
theorem C4_preview_rows (prediction : PredictionRecord) (pg : Page) :
    (displayBatchDetails prediction pg).batchDetailsContent =
      detailsHeader prediction ++
      (List.map
        (fun x : Nat × PredEntry =>
      (utf16 "\n            <tr>\n                <td>") ++ utf16 (toString (x.1 + 1)) ++
      (utf16 "</td>\n                <td>") ++ (x.2.Glucose.orElse (Val.str (utf16 "N/A"))).toStr ++
      (utf16 "</td>\n                <td>") ++ (x.2.BMI.orElse (Val.str (utf16 "N/A"))).toStr ++
      (utf16 "</td>\n                <td>") ++ (x.2.Age.orElse (Val.str (utf16 "N/A"))).toStr ++
      (utf16 "</td>\n                <td>\n                    ") ++
      (if x.2.Risk_Level.strictEq (Val.str (utf16 "High")) then
        (utf16 "<span class=\"badge bg-danger\">High Risk</span>")
       else
        (utf16 "<span class=\"badge bg-success\">Low Risk</span>")) ++
      (utf16 "\n                </td>\n                <td><strong>") ++ (x.2.Probability.orElse (Val.str (utf16 "N/A"))).toStr ++
      (utf16 "</strong></td>\n            </tr>\n        "))
        ((prediction.predictions.getD []).take 10).enum).flatten ++
      (if (prediction.predictions.getD []).length > 10 then
        (utf16 "\n            <tr>\n                <td colspan=\"6\" class=\"text-center text-muted\">\n                    <i>... and ") ++ (Val.num (JSNumber.ofNat ((prediction.predictions.getD []).length - 10))).toStr ++
  (utf16 " more records</i>\n                </td>\n            </tr>\n        ")
       else []) ++
      (utf16 "\n                        </tbody>\n                    </table>\n                </div>\n            </div>\n        </div>\n    ") ∧
    (List.map
        (fun x : Nat × PredEntry =>
      (utf16 "\n            <tr>\n                <td>") ++ utf16 (toString (x.1 + 1)) ++
      (utf16 "</td>\n                <td>") ++ (x.2.Glucose.orElse (Val.str (utf16 "N/A"))).toStr ++
      (utf16 "</td>\n                <td>") ++ (x.2.BMI.orElse (Val.str (utf16 "N/A"))).toStr ++
      (utf16 "</td>\n                <td>") ++ (x.2.Age.orElse (Val.str (utf16 "N/A"))).toStr ++
      (utf16 "</td>\n                <td>\n                    ") ++
      (if x.2.Risk_Level.strictEq (Val.str (utf16 "High")) then
        (utf16 "<span class=\"badge bg-danger\">High Risk</span>")
       else
        (utf16 "<span class=\"badge bg-success\">Low Risk</span>")) ++
      (utf16 "\n                </td>\n                <td><strong>") ++ (x.2.Probability.orElse (Val.str (utf16 "N/A"))).toStr ++
      (utf16 "</strong></td>\n            </tr>\n        "))
        ((prediction.predictions.getD []).take 10).enum).length =
      min (prediction.predictions.getD []).length 10 := by
  constructor
  · simp only [displayBatchDetails, batchDetailsHtml, detailsFooter, moreNote, List.enum]
    rw [appendSampleRows_eq _ 0 _ (by simp [List.length_take])]
    split
    · rfl
    · rw [List.append_nil]
  · simp [List.length_take, Nat.min_comm]


theorem header_prefix_details (r : PredictionRecord) :
    detailsHeader r <+: batchDetailsHtml r := by
  unfold batchDetailsHtml
  simp only
  split
  · exact ((appendSampleRows_extends _ 0 _).trans (List.prefix_append _ _)).trans
      (List.prefix_append _ _)
  · exact (appendSampleRows_extends _ 0 _).trans (List.prefix_append _ _)

theorem metadata_prefix_header (r : PredictionRecord) :
    ((utf16 "\n        <div class=\"row\">\n            <div class=\"col-md-6\">\n                <div class=\"card mb-3\">\n                    <div class=\"card-header\">\n                        <h6 class=\"mb-0\">Batch Information</h6>\n                    </div>\n                    <div class=\"card-body\">\n                        <p><strong>ID:</strong> ") ++ r.id.toStr ++
  (utf16 "</p>\n                        <p><strong>Timestamp:</strong> ") ++ r.timestamp.toStr ++
  (utf16 "</p>\n                        <p><strong>Model:</strong> ") ++ r.model_used.toStr ++
  (utf16 "</p>\n                        <p><strong>Type:</strong> ") ++ r.type.toStr) <+: detailsHeader r := by
  simp only [detailsHeader, List.append_assoc, List.prefix_append_right_inj, List.prefix_append]

/-- C8, refuted as stated: for the successful response `{success: true}` that
carries no `history`, no record has the requested id, yet the call is not
silent: an error banner is shown (and no modal is opened). -/
theorem C8_counterexample :
    (viewBatchDetails (Val.str (utf16 "b7f3a9c2d1")) (JsonFetch.body noHistoryResponse)
        loadedPage).toasts =
      [{ className := utf16 "alert alert-danger alert-dismissible fade show position-fixed"
         innerHTML := utf16 "\n        Failed to load batch details\n        <button type=\"button\" class=\"btn-close\" data-bs-dismiss=\"alert\"></button>\n    " }] ∧
    loadedPage.toasts = [] ∧
    (viewBatchDetails (Val.str (utf16 "b7f3a9c2d1")) (JsonFetch.body noHistoryResponse)
        loadedPage).modalShows = 0 := by
  refine ⟨rfl, rfl, rfl⟩

/-- C8, amended: for every batch id and every successful response that carries
a history collection, `viewBatchDetails` opens the modal exactly when some
record has the requested id (`===`); it then writes the detail view of the
first record with that id, whose markup starts with that record's id,
timestamp, model and type, binds the download button to it and shows no
banner; when no record has the id, the detail content, the modal, the download
binding and the banners are as before. -/
theorem C8_view_batch_details (batchId : Val) (data : HistoryResponse)
    (history : List PredictionRecord) (pg : Page)
    (hs : data.success.truthy = true) (hh : data.history = some history) :
    ((viewBatchDetails batchId (JsonFetch.body data) pg).modalShows = pg.modalShows + 1 ↔
      ∃ r ∈ history, r.id.strictEq batchId = true) ∧
    ((∃ r ∈ history, r.id.strictEq batchId = true) →
      ∃ before r after, history = before ++ r :: after ∧ r.id.strictEq batchId = true ∧
        (∀ q ∈ before, q.id.strictEq batchId = false) ∧
        (viewBatchDetails batchId (JsonFetch.body data) pg).batchDetailsContent =
          batchDetailsHtml r ∧
        ((utf16 "\n        <div class=\"row\">\n            <div class=\"col-md-6\">\n                <div class=\"card mb-3\">\n                    <div class=\"card-header\">\n                        <h6 class=\"mb-0\">Batch Information</h6>\n                    </div>\n                    <div class=\"card-body\">\n                        <p><strong>ID:</strong> ") ++ r.id.toStr ++
  (utf16 "</p>\n                        <p><strong>Timestamp:</strong> ") ++ r.timestamp.toStr ++
  (utf16 "</p>\n                        <p><strong>Model:</strong> ") ++ r.model_used.toStr ++
  (utf16 "</p>\n                        <p><strong>Type:</strong> ") ++ r.type.toStr) <+:
          (viewBatchDetails batchId (JsonFetch.body data) pg).batchDetailsContent ∧
        (viewBatchDetails batchId (JsonFetch.body data) pg).downloadBatchId = some r.id ∧
        (viewBatchDetails batchId (JsonFetch.body data) pg).modalShows = pg.modalShows + 1 ∧
        (viewBatchDetails batchId (JsonFetch.body data) pg).toasts = pg.toasts) ∧
    ((¬ ∃ r ∈ history, r.id.strictEq batchId = true) →
      (viewBatchDetails batchId (JsonFetch.body data) pg).batchDetailsContent =
          pg.batchDetailsContent ∧
        (viewBatchDetails batchId (JsonFetch.body data) pg).downloadBatchId =
          pg.downloadBatchId ∧
        (viewBatchDetails batchId (JsonFetch.body data) pg).modalShows = pg.modalShows ∧
        (viewBatchDetails batchId (JsonFetch.body data) pg).toasts = pg.toasts) := by
  cases hf : history.find? (fun p => p.id.strictEq batchId) with
  | none =>
    have hv : viewBatchDetails batchId (JsonFetch.body data) pg =
        { pg with currentBatchId := batchId } := by
      simp [viewBatchDetails, hs, hh, hf]
    have hno : ¬ ∃ r ∈ history, r.id.strictEq batchId = true := by
      rintro ⟨r, hr, hid⟩
      exact List.find?_eq_none.mp hf r hr hid
    rw [hv]
    refine ⟨⟨fun h => absurd h (by simp), fun h => absurd h hno⟩, fun h => absurd h hno, ?_⟩
    intro _
    exact ⟨rfl, rfl, rfl, rfl⟩
  | some r =>
    have hv : viewBatchDetails batchId (JsonFetch.body data) pg =
        { displayBatchDetails r { pg with currentBatchId := batchId } with
          modalShows := pg.modalShows + 1 } := by
      simp [viewBatchDetails, hs, hh, hf, displayBatchDetails]
    obtain ⟨hp, before, after, hsplit, hbefore⟩ := List.find?_eq_some.mp hf
    have hex : ∃ r ∈ history, r.id.strictEq batchId = true :=
      ⟨r, by rw [hsplit]; simp, hp⟩
    rw [hv]
    refine ⟨⟨fun _ => hex, fun _ => rfl⟩, ?_, fun h => absurd hex h⟩
    intro _
    refine ⟨before, r, after, hsplit, hp, ?_, rfl, ?_, rfl, rfl, rfl⟩
    · intro q hq
      have := hbefore q hq
      simpa using this
    · exact (metadata_prefix_header r).trans (header_prefix_details r)

/-- Witness of the amended C8: the id of the second record of a two-record
history. -/
theorem C8_view_batch_details_witness :
    ((viewBatchDetails (Val.str (utf16 "b7f3a9c2d1"))
        (JsonFetch.body
          { success := Val.bool true, history := some [sampleSingle, sampleBatch],
            total_count := Val.num (JSNumber.ofNat 2) })
        loadedPage).modalShows = loadedPage.modalShows + 1 ↔
      ∃ r ∈ [sampleSingle, sampleBatch], r.id.strictEq (Val.str (utf16 "b7f3a9c2d1")) = true) :=
  (C8_view_batch_details (Val.str (utf16 "b7f3a9c2d1"))
    { success := Val.bool true, history := some [sampleSingle, sampleBatch],
      total_count := Val.num (JSNumber.ofNat 2) }
    [sampleSingle, sampleBatch] loadedPage rfl rfl).1


end PredictionHistory
